import Mathlib

/-!
Verification development for the Kiali traffic-graph page
(src/plugins/kiali/src/pages/TrafficGraph/TrafficGraphPage.tsx).

The page is embedded shallowly: the React component state (previous
duration, previous active namespaces, the stored Model, the rendering
controller) becomes an explicit record, and the lifecycle is a step
function over explicit events (a render with new view state, the
delivery of an asynchronous telemetry response, a refresh invocation).
Helper modules that the page imports but whose sources are not part of
this repository snapshot (nsEqual, decorateGraphData, generateDataModel,
getErrorString) are modelled from the specification and marked as such
in their doc comments.
-/

namespace TrafficGraph

/-- Enumeration of graph types; the page uses GraphType.VERSIONED_APP. -/
inductive GraphType
  | versionedApp
  | app
  | service
  | workload
deriving DecidableEq, Repr

/-- Enumeration of edge label modes requested in the query. -/
inductive EdgeLabelMode
  | trafficRate
  | trafficDistribution
  | throughput
  | responseTime
deriving DecidableEq, Repr

/-- Enumeration of traffic rate kinds requested in the query. -/
inductive TrafficRate
  | httpRequest
  | grpcTotal
  | tcpTotal
deriving DecidableEq, Repr

/-- Graph configuration record carried by every Model. -/
structure GraphConfig where
  id : String
  type : String
  layout : String
deriving DecidableEq, Repr

/-- Constant graphConfig from the page source (lines 39 to 43). -/
def graphConfig : GraphConfig :=
  { id := "g1", type := "graph", layout := "Dagre" }

/-- Health classification attached to nodes and edges by decoration. -/
inductive Health
  | healthy
  | degraded
  | unknown
deriving DecidableEq, Repr

/-- Node of the rendering-ready Model. -/
structure GNode where
  id : String
  kind : String
  namespc : String
  cluster : String
  parent : Option String
  health : Health
deriving DecidableEq, Repr

/-- Edge of the rendering-ready Model. -/
structure GEdge where
  source : String
  target : String
  labels : List (EdgeLabelMode × Nat)
deriving DecidableEq, Repr

/-- Rendering-ready Model: nodes, edges and the graph configuration. -/
structure Model where
  nodes : List GNode
  edges : List GEdge
  graph : GraphConfig
deriving DecidableEq, Repr

/-- Query record built by fetchGraph (source lines 103 to 123). -/
structure GraphQuery where
  appenders : String
  activeNamespaces : String
  namespaces : String
  graphType : GraphType
  injectServiceNodes : Bool
  boxByNamespace : Bool
  boxByCluster : Bool
  showOutOfMesh : Bool
  showSecurity : Bool
  showVirtualServices : Bool
  edgeLabels : List EdgeLabelMode
  trafficRates : List TrafficRate
deriving DecidableEq, Repr

/-- Comma join used for the activeNamespaces and namespaces fields. -/
def joinComma (l : List String) : String :=
  String.intercalate "," l

/-- Translation of the graphQueryElements literal of fetchGraph
(source lines 103 to 123): every field is a constant except the two
comma-joined namespace strings; the selected duration is not used. -/
def mkGraphQuery (activeNs : List String) : GraphQuery :=
  { appenders := "health,deadNode,istio,serviceEntry,meshCheck,workloadEntry"
    activeNamespaces := joinComma activeNs
    namespaces := joinComma activeNs
    graphType := GraphType.versionedApp
    injectServiceNodes := true
    boxByNamespace := true
    boxByCluster := true
    showOutOfMesh := false
    showSecurity := false
    showVirtualServices := false
    edgeLabels := [EdgeLabelMode.trafficRate, EdgeLabelMode.trafficDistribution]
    trafficRates := [TrafficRate.httpRequest, TrafficRate.grpcTotal,
                     TrafficRate.tcpTotal] }

/-- Raw wire-format node as returned by the telemetry source. -/
structure RawNodeData where
  id : String
  nodeType : String
  namespc : String
  cluster : String
  healthSignal : Option Nat
  outOfMesh : Bool
  isSecurity : Bool
  isVirtualService : Bool
deriving DecidableEq, Repr

/-- Raw wire-format edge as returned by the telemetry source. -/
structure RawEdgeData where
  source : String
  target : String
  httpCount : Nat
  grpcCount : Nat
  tcpCount : Nat
  serviceName : Option String
  healthSignal : Option Nat
deriving DecidableEq, Repr

/-- Raw telemetry element: a node or an edge. -/
inductive RawElement
  | node (n : RawNodeData)
  | edge (e : RawEdgeData)
deriving DecidableEq, Repr

/-- Decorated node: raw node annotated with a health classification. -/
structure DecoNode where
  id : String
  nodeType : String
  namespc : String
  cluster : String
  health : Health
  outOfMesh : Bool
  isSecurity : Bool
  isVirtualService : Bool
deriving DecidableEq, Repr

/-- Decorated edge: rates normalized per duration, health attached. -/
structure DecoEdge where
  source : String
  target : String
  httpRate : Nat
  grpcRate : Nat
  tcpRate : Nat
  health : Health
  serviceName : Option String
deriving DecidableEq, Repr

/-- Decorated graph data consumed by the model generator. -/
structure DecoratedGraphData where
  nodes : List DecoNode
  edges : List DecoEdge
  duration : Nat
deriving DecidableEq, Repr

/-- Modelled from the spec: health classification from an optional
signal field; a missing signal yields neutral unknown health rather
than a failure. -/
def classifyHealth : Option Nat → Health
  | none => Health.unknown
  | some 0 => Health.healthy
  | some (_ + 1) => Health.degraded

/-- Modelled from the spec: traffic counters are normalized against
the supplied duration so rates are comparable across windows. -/
def normalizeRate (count dur : Nat) : Nat :=
  if dur = 0 then count else count / dur

/-- Modelled from the spec: duplicate edge entries for the same
source and target pair are merged, combining their metrics rather than
producing parallel edges. -/
def mergeDecoEdge (e : DecoEdge) : List DecoEdge → List DecoEdge
  | [] => [e]
  | f :: fs =>
    if f.source == e.source && f.target == e.target then
      { f with
        httpRate := f.httpRate + e.httpRate
        grpcRate := f.grpcRate + e.grpcRate
        tcpRate := f.tcpRate + e.tcpRate } :: fs
    else
      f :: mergeDecoEdge e fs

/-- Modelled from the spec: decoration pass over the raw elements.
Fails with a DecorationError only on a structurally invalid input,
namely an edge naming no endpoints; all other irregularities degrade
gracefully with defaults. -/
def decorateElems (duration : Nat) :
    List RawElement → Except String (List DecoNode × List DecoEdge)
  | [] => Except.ok ([], [])
  | RawElement.node n :: rest => do
    let (ns, es) ← decorateElems duration rest
    Except.ok
      ({ id := n.id, nodeType := n.nodeType, namespc := n.namespc,
         cluster := n.cluster, health := classifyHealth n.healthSignal,
         outOfMesh := n.outOfMesh, isSecurity := n.isSecurity,
         isVirtualService := n.isVirtualService } :: ns, es)
  | RawElement.edge e :: rest =>
    if e.source = "" || e.target = "" then
      Except.error "DecorationError: edge names no endpoints"
    else do
      let (ns, es) ← decorateElems duration rest
      Except.ok (ns, mergeDecoEdge
        { source := e.source, target := e.target,
          httpRate := normalizeRate e.httpCount duration,
          grpcRate := normalizeRate e.grpcCount duration,
          tcpRate := normalizeRate e.tcpCount duration,
          health := classifyHealth e.healthSignal,
          serviceName := e.serviceName } es)

/-- Modelled from the spec: the source of decorateGraphData is not in
this repository snapshot; the decoration contract decorate(elements,
duration) is taken from the specification. -/
def decorateGraphData (elements : List RawElement) (duration : Nat) :
    Except String DecoratedGraphData :=
  match decorateElems duration elements with
  | Except.ok (ns, es) =>
    Except.ok { nodes := ns, edges := es, duration := duration }
  | Except.error e => Except.error e

/-- Generated node and edge lists produced by the model generator. -/
structure GenModel where
  nodes : List GNode
  edges : List GEdge
deriving DecidableEq, Repr

/-- Kernel-reducible strict comparison on character lists. -/
def strLtCore : List Char → List Char → Bool
  | [], [] => false
  | [], _ :: _ => true
  | _ :: _, [] => false
  | a :: as, b :: bs =>
    if a.toNat < b.toNat then true
    else if b.toNat < a.toNat then false
    else strLtCore as bs

/-- Kernel-reducible linear order on strings used for sorting. -/
def strLeB (a b : String) : Bool :=
  !(strLtCore b.data a.data)

/-- Insertion into a list sorted by the given boolean relation. -/
def insertLe {α : Type} (le : α → α → Bool) (a : α) : List α → List α
  | [] => [a]
  | b :: bs => if le a b then a :: b :: bs else b :: insertLe le a bs

/-- Insertion sort by the given boolean relation. -/
def sortLe {α : Type} (le : α → α → Bool) : List α → List α
  | [] => []
  | a :: as => insertLe le a (sortLe le as)

/-- Rate selector for one requested traffic rate kind. -/
def rateOf (e : DecoEdge) : TrafficRate → Nat
  | TrafficRate.httpRequest => e.httpRate
  | TrafficRate.grpcTotal => e.grpcRate
  | TrafficRate.tcpTotal => e.tcpRate

/-- Modelled from the spec: the requested traffic rate kinds are
combined into a single composite value. -/
def combinedRate (P : GraphQuery) (e : DecoEdge) : Nat :=
  (P.trafficRates.map (rateOf e)).foldl (fun a b => a + b) 0

/-- Modelled from the spec: edge label values are built only for the
modes present in the query edgeLabels list. -/
def edgeLabelsFor (P : GraphQuery) (e : DecoEdge) :
    List (EdgeLabelMode × Nat) :=
  P.edgeLabels.map (fun m => (m, combinedRate P e))

/-- Modelled from the spec: visibility filters drop elements excluded
by the showOutOfMesh, showSecurity and showVirtualServices flags. -/
def nodeVisible (P : GraphQuery) (n : DecoNode) : Bool :=
  (P.showOutOfMesh || !n.outOfMesh) &&
  (P.showSecurity || !n.isSecurity) &&
  (P.showVirtualServices || !n.isVirtualService)

/-- Conversion of a decorated node to a Model node. -/
def toGNode (n : DecoNode) : GNode :=
  { id := n.id, kind := n.nodeType, namespc := n.namespc,
    cluster := n.cluster, parent := none, health := n.health }

/-- Identifier of a synthesized service node. -/
def svcNodeId (svc : String) : String := "svc:" ++ svc

/-- Identifier of a namespace box node. -/
def nsBoxId (cl nsp : String) : String := "box:ns:" ++ cl ++ ":" ++ nsp

/-- Identifier of a cluster box node. -/
def clBoxId (cl : String) : String := "box:cluster:" ++ cl

/-- Lookup of the namespace and cluster of a node by identifier. -/
def lookupNsCluster (ns : List DecoNode) (i : String) : String × String :=
  match ns.find? (fun n => n.id == i) with
  | some n => (n.namespc, n.cluster)
  | none => ("", "")

/-- Modelled from the spec: when injectServiceNodes is set, a
workload-to-workload edge that communicates through a named service is
split into two edges through a synthesized service node. -/
def injectEdges (P : GraphQuery) (vis : List DecoNode) :
    List DecoEdge → List GNode × List GEdge
  | [] => ([], [])
  | e :: es =>
    let (ns, gs) := injectEdges P vis es
    match P.injectServiceNodes, e.serviceName with
    | true, some svc =>
      let nc := lookupNsCluster vis e.source
      let sNode : GNode :=
        { id := svcNodeId svc, kind := "service", namespc := nc.1,
          cluster := nc.2, parent := none, health := Health.unknown }
      (sNode :: ns,
       { source := e.source, target := svcNodeId svc,
         labels := edgeLabelsFor P e } ::
       { source := svcNodeId svc, target := e.target,
         labels := edgeLabelsFor P e } :: gs)
    | _, _ =>
      (ns, { source := e.source, target := e.target,
             labels := edgeLabelsFor P e } :: gs)

/-- Removal of duplicate nodes by identifier, keeping first occurrences. -/
def dedupeNodes (l : List GNode) : List GNode :=
  l.foldl (fun acc n => if acc.any (fun m => m.id == n.id) then acc
                        else acc ++ [n]) []

/-- Removal of duplicate strings, keeping first occurrences. -/
def dedupeStrs (l : List String) : List String :=
  l.foldl (fun acc s => if acc.any (fun t => t == s) then acc
                        else acc ++ [s]) []

/-- Removal of duplicate string pairs, keeping first occurrences. -/
def dedupePairs (l : List (String × String)) : List (String × String) :=
  l.foldl (fun acc p => if acc.any (fun q => q.1 == p.1 && q.2 == p.2)
                        then acc else acc ++ [p]) []

/-- Modelled from the spec: box membership assignment, giving ordinary
nodes a parent reference when boxing is requested. -/
def assignParent (P : GraphQuery) (n : GNode) : GNode :=
  if P.boxByNamespace then
    { n with parent := some (nsBoxId n.cluster n.namespc) }
  else if P.boxByCluster then
    { n with parent := some (clBoxId n.cluster) }
  else n

/-- Sort key of a node: box membership, then kind, then identifier. -/
def nodeKey (n : GNode) : String :=
  (match n.parent with | some p => p | none => "") ++ "|" ++
    n.kind ++ "|" ++ n.id

/-- Boolean order on Model nodes for deterministic output. -/
def nodeLe (a b : GNode) : Bool := strLeB (nodeKey a) (nodeKey b)

/-- Boolean order on Model edges: source, then target. -/
def edgeLe (a b : GEdge) : Bool :=
  strLeB (a.source ++ "|" ++ a.target) (b.source ++ "|" ++ b.target)

/-- Modelled from the spec: the source of generateDataModel is not in
this repository snapshot; the generation contract generate(data,
params) is taken from the specification: visibility filters first,
then service node injection, then boxing, then a deterministic sort of
nodes and edges. -/
def generateDataModel (data : DecoratedGraphData) (P : GraphQuery) :
    GenModel :=
  let vis := data.nodes.filter (nodeVisible P)
  let base := vis.map toGNode
  let inj := injectEdges P vis data.edges
  let ordinary := (dedupeNodes (base ++ inj.1)).map (assignParent P)
  let nsBoxes : List GNode :=
    if P.boxByNamespace then
      (dedupePairs (ordinary.map (fun n => (n.cluster, n.namespc)))).map
        (fun p =>
          { id := nsBoxId p.1 p.2, kind := "box", namespc := p.2,
            cluster := p.1,
            parent := if P.boxByCluster then some (clBoxId p.1) else none,
            health := Health.unknown })
    else []
  let clBoxes : List GNode :=
    if P.boxByCluster then
      (dedupeStrs (ordinary.map (fun n => n.cluster))).map
        (fun cl =>
          { id := clBoxId cl, kind := "box", namespc := "", cluster := cl,
            parent := none, health := Health.unknown })
    else []
  { nodes := sortLe nodeLe (ordinary ++ nsBoxes ++ clBoxes),
    edges := sortLe edgeLe inj.2 }

/-- Composed pipeline: decoration followed by model generation. -/
def pipeline (E : List RawElement) (d : Nat) (P : GraphQuery) :
    Except String GenModel :=
  match decorateGraphData E d with
  | Except.ok dg => Except.ok (generateDataModel dg P)
  | Except.error e => Except.error e

/-- Modelled from the spec: the source of the nsEqual helper is not in
this repository snapshot; the specification states that active
namespaces are compared as an unordered set, not by array order. -/
def nsEqual (a b : List String) : Bool :=
  a.all (fun x => b.elem x) && b.all (fun x => a.elem x)

/-- Modelled from the spec: the source of getErrorString is not in this
repository snapshot; it renders the failure description carried by the
error. Errors are embedded as their description strings. -/
def getErrorString (e : String) : String := e

/-- Alert message produced on a fetch failure (source line 136). -/
def couldNotFetch (e : String) : String :=
  "Could not fetch services: " ++ getErrorString e

/-- Rendering controller: the fitToScreenOnLayout flag and factory
registrations set by getVisualization, plus the observation log of
every model pushed into it together with the animate argument. -/
structure Controller where
  fitToScreenOnLayout : Bool
  layoutFactoryRegistered : Bool
  componentFactoryRegistered : Bool
  applied : List (Model × Bool)
deriving DecidableEq, Repr

/-- Translation of getVisualization (source lines 45 to 53): registers
the layout and component factories and enables fit to screen on layout. -/
def getVisualization : Controller :=
  { fitToScreenOnLayout := true
    layoutFactoryRegistered := true
    componentFactoryRegistered := true
    applied := [] }

/-- Translation of the model synchronization effect (source lines 164
to 166): controller.fromModel(model, false) pushes the model with the
animate argument false. -/
def controllerFromModel (c : Controller) (m : Model) : Controller :=
  { c with applied := c.applied ++ [(m, false)] }

/-- Telemetry response shape: elements plus the reporting duration. -/
structure FetchResponse where
  elements : List RawElement
  duration : Nat
deriving DecidableEq, Repr

/-- Page state: the React component state and refs made explicit, plus
observation instrumentation (pending in-flight requests with their
sequence numbers, the log of queries sent to the telemetry source, and
a count of fetchGraph invocations). -/
structure PageState where
  prevDuration : Nat
  prevActiveNs : List String
  model : Model
  alerts : List String
  pending : List (Nat × GraphQuery)
  nextSeq : Nat
  sentQueries : List GraphQuery
  fetchCalls : Nat
  controller : Controller
deriving DecidableEq, Repr

/-- Initial Model of the page (source lines 85 to 89). -/
def initialModel : Model :=
  { nodes := [], edges := [], graph := graphConfig }

/-- Model replacement: setModel plus the synchronization effect that
reacts to the new model (source lines 164 to 166). -/
def setModel (m : Model) (s : PageState) : PageState :=
  { s with model := m, controller := controllerFromModel s.controller m }

/-- Initial page state for given first-render active namespaces and
duration: the prev refs start at the first-render values (source lines
82 and 83), the model starts empty with graphConfig, and the mount
synchronization pushes the initial model into the controller. -/
def initialState (ns0 : List String) (d0 : Nat) : PageState :=
  { prevDuration := d0
    prevActiveNs := ns0
    model := initialModel
    alerts := []
    pending := []
    nextSeq := 0
    sentQueries := []
    fetchCalls := 0
    controller := controllerFromModel getVisualization initialModel }

/-- Translation of fetchGraph (source lines 93 to 139), synchronous
part: with an empty active namespace list the model is replaced by an
empty one and no request is issued; otherwise the query is built and
the asynchronous request to getGraphElements is issued, recorded here
as a pending request tagged with a fresh sequence number. -/
def fetchGraph (ns : List String) (s : PageState) : PageState :=
  let s0 := { s with fetchCalls := s.fetchCalls + 1 }
  if ns.length = 0 then
    setModel { nodes := [], edges := [], graph := graphConfig } s0
  else
    let q := mkGraphQuery ns
    { s0 with
      pending := s0.pending ++ [(s0.nextSeq, q)]
      nextSeq := s0.nextSeq + 1
      sentQueries := s0.sentQueries ++ [q] }

/-- Condition of the change-detection effect (source lines 153 to 156):
the duration differs from the prev ref or nsEqual fails. -/
def triggersB (s : PageState) (ns : List String) (dur : Nat) : Bool :=
  decide (dur ≠ s.prevDuration) || !(nsEqual ns s.prevActiveNs)

/-- Translation of the change-detection effect (source lines 152 to
162): on a render with the given view state, when the condition holds,
fetchGraph runs and the prev refs are updated; otherwise nothing
happens. -/
def stepViewChange (ns : List String) (dur : Nat) (s : PageState) :
    PageState :=
  if triggersB s ns dur then
    let s1 := fetchGraph ns s
    { s1 with prevDuration := dur, prevActiveNs := ns }
  else s

/-- Resolution of the awaited getGraphElements call (source lines 125
to 138): the matching pending request is consumed; on success the data
is decorated and generated and the model replaced with graphConfig
attached; on failure, or on a decoration error thrown inside the try
block, the catch adds the alert message and the model is untouched. -/
def deliverResp (seq : Nat) (resp : Except String FetchResponse)
    (s : PageState) : PageState :=
  match s.pending.find? (fun p => p.1 == seq) with
  | none => s
  | some pq =>
    let s1 := { s with pending := s.pending.filter (fun p => p.1 != seq) }
    match resp with
    | Except.error e => { s1 with alerts := s1.alerts ++ [couldNotFetch e] }
    | Except.ok data =>
      match decorateGraphData data.elements data.duration with
      | Except.error e =>
        { s1 with alerts := s1.alerts ++ [couldNotFetch e] }
      | Except.ok dg =>
        let g := generateDataModel dg pq.2
        setModel { nodes := g.nodes, edges := g.edges,
                   graph := graphConfig } s1

/-- Events of the page lifecycle: a render with new view state, the
delivery of a telemetry response for an in-flight request, and an
invocation of the refresh callback (the debounced mount refresh or the
masthead refresh button), which calls fetchGraph with the current
active namespaces. -/
inductive Event
  | viewChange (ns : List String) (dur : Nat)
  | deliver (seq : Nat) (resp : Except String FetchResponse)
  | refresh (ns : List String)
deriving Repr

/-- Single step of the page lifecycle. -/
def step : Event → PageState → PageState
  | Event.viewChange ns dur, s => stepViewChange ns dur s
  | Event.deliver seq resp, s => deliverResp seq resp s
  | Event.refresh ns, s => fetchGraph ns s

/-- Run of the page lifecycle over a list of events. -/
def run : List Event → PageState → PageState
  | [], s => s
  | e :: es, s => run es (step e s)

/-- Fold of consecutive renders used to state burst behaviour: each
element is the view state of one render. -/
def runViewChanges : List (List String × Nat) → PageState → PageState
  | [], s => s
  | (ns, dur) :: evs, s => runViewChanges evs (stepViewChange ns dur s)

/-- Chain of qualifying trigger events: every event in the list
satisfies the change-detection condition at the state it reaches. -/
def qualifyingChainB (s : PageState) :
    List (List String × Nat) → Bool
  | [] => true
  | (ns, dur) :: evs =>
    triggersB s ns dur && qualifyingChainB (stepViewChange ns dur s) evs

/-- Characterisation of nsEqual as unordered set equality. -/
theorem nsEqual_iff (a b : List String) :
    nsEqual a b = true ↔ ∀ x, x ∈ a ↔ x ∈ b := by
  unfold nsEqual
  rw [Bool.and_eq_true, List.all_eq_true, List.all_eq_true]
  constructor
  · rintro ⟨h1, h2⟩ x
    exact ⟨fun hx => List.elem_iff.mp (h1 x hx),
           fun hx => List.elem_iff.mp (h2 x hx)⟩
  · intro h
    exact ⟨fun x hx => List.elem_iff.mpr ((h x).mp hx),
           fun x hx => List.elem_iff.mpr ((h x).mpr hx)⟩

/-- Characterisation of the change-detection condition. -/
theorem triggersB_iff (s : PageState) (ns : List String) (dur : Nat) :
    triggersB s ns dur = true ↔
      (dur ≠ s.prevDuration ∨ ¬ ∀ x, x ∈ ns ↔ x ∈ s.prevActiveNs) := by
  unfold triggersB
  rw [Bool.or_eq_true, decide_eq_true_eq]
  constructor
  · rintro (h | h)
    · exact Or.inl h
    · refine Or.inr fun hall => ?_
      have hb : nsEqual ns s.prevActiveNs = true :=
        (nsEqual_iff ns s.prevActiveNs).mpr hall
      rw [hb] at h
      simp at h
  · rintro (h | h)
    · exact Or.inl h
    · refine Or.inr ?_
      cases hb : nsEqual ns s.prevActiveNs
      · rfl
      · exact absurd ((nsEqual_iff ns s.prevActiveNs).mp hb) h

/-- Every invocation of fetchGraph increments the invocation count. -/
theorem fetchGraph_fetchCalls (ns : List String) (s : PageState) :
    (fetchGraph ns s).fetchCalls = s.fetchCalls + 1 := by
  unfold fetchGraph
  split <;> rfl

/-- Equation of stepViewChange when the condition holds. -/
theorem stepViewChange_pos {s : PageState} {ns : List String} {dur : Nat}
    (h : triggersB s ns dur = true) :
    stepViewChange ns dur s =
      { fetchGraph ns s with prevDuration := dur, prevActiveNs := ns } := by
  unfold stepViewChange
  rw [if_pos h]

/-- Equation of stepViewChange when the condition fails. -/
theorem stepViewChange_neg {s : PageState} {ns : List String} {dur : Nat}
    (h : triggersB s ns dur = false) :
    stepViewChange ns dur s = s := by
  unfold stepViewChange
  rw [if_neg (by simp [h])]

/-- C1: for every view-state change event, a fetch is triggered if and
only if the selected duration changed or the active namespace set
changed in membership, the comparison being unordered set equality;
reordering an unchanged namespace set never triggers a fetch, while
adding or removing a namespace always does. Fetch triggering is
observed as the increment of the fetchGraph invocation count. -/
theorem c1_fetch_trigger_iff (s : PageState) (ns : List String) (dur : Nat) :
    ((stepViewChange ns dur s).fetchCalls = s.fetchCalls + 1 ↔
      (dur ≠ s.prevDuration ∨ ¬ ∀ x, x ∈ ns ↔ x ∈ s.prevActiveNs))
    ∧ (List.Perm ns s.prevActiveNs → dur = s.prevDuration →
        stepViewChange ns dur s = s)
    ∧ (∀ x, x ∈ ns → x ∉ s.prevActiveNs →
        (stepViewChange ns dur s).fetchCalls = s.fetchCalls + 1)
    ∧ (∀ x, x ∉ ns → x ∈ s.prevActiveNs →
        (stepViewChange ns dur s).fetchCalls = s.fetchCalls + 1) := by
  have hmain : ∀ (_ : triggersB s ns dur = true),
      (stepViewChange ns dur s).fetchCalls = s.fetchCalls + 1 := by
    intro h
    rw [stepViewChange_pos h]
    simpa using fetchGraph_fetchCalls ns s
  refine ⟨?_, ?_, ?_, ?_⟩
  · rw [← triggersB_iff]
    constructor
    · intro hfc
      cases hb : triggersB s ns dur
      · rw [stepViewChange_neg hb] at hfc
        exact absurd hfc (by omega)
      · rfl
    · exact hmain
  · intro hperm hdur
    have hset : ∀ x, x ∈ ns ↔ x ∈ s.prevActiveNs := fun x => hperm.mem_iff
    have hfalse : triggersB s ns dur = false := by
      cases hb : triggersB s ns dur
      · rfl
      · rcases (triggersB_iff s ns dur).mp hb with h | h
        · exact absurd hdur h
        · exact absurd hset h
    exact stepViewChange_neg hfalse
  · intro x hx hnx
    exact hmain ((triggersB_iff s ns dur).mpr
      (Or.inr fun hall => hnx ((hall x).mp hx)))
  · intro x hnx hx
    exact hmain ((triggersB_iff s ns dur).mpr
      (Or.inr fun hall => hnx ((hall x).mpr hx)))

/-- Witness for C1 at concrete inputs: adding namespace b triggers a
fetch, and reordering an unchanged namespace set with unchanged
duration leaves the state untouched. -/
theorem c1_fetch_trigger_iff_witness :
    (stepViewChange ["b"] 60 (initialState ["a"] 60)).fetchCalls
        = (initialState ["a"] 60).fetchCalls + 1
    ∧ stepViewChange ["b", "a"] 60 (initialState ["a", "b"] 60)
        = initialState ["a", "b"] 60 := by
  constructor
  · exact (c1_fetch_trigger_iff (initialState ["a"] 60) ["b"] 60).2.2.1 "b"
      (by decide) (by decide)
  · exact (c1_fetch_trigger_iff (initialState ["a", "b"] 60) ["b", "a"] 60).2.1
      (by decide) rfl

/-- C2: with an empty active namespace list, fetchGraph replaces the
stored Model by one with zero nodes and zero edges, sends no query to
the telemetry source, leaves no request in flight, and raises no
alert: the path completes successfully. -/
theorem c2_empty_fast_path (s : PageState) :
    (fetchGraph [] s).model = { nodes := [], edges := [], graph := graphConfig }
    ∧ (fetchGraph [] s).model.nodes = []
    ∧ (fetchGraph [] s).model.edges = []
    ∧ (fetchGraph [] s).sentQueries = s.sentQueries
    ∧ (fetchGraph [] s).pending = s.pending
    ∧ (fetchGraph [] s).alerts = s.alerts :=
  ⟨rfl, rfl, rfl, rfl, rfl, rfl⟩

/-- C3: when the telemetry request of a pending fetch fails, the stored
Model is left unchanged and exactly one alert is appended, whose text
is the literal prefix Could not fetch services followed by the failure
description; deliverResp is total, so no exception escapes. -/
theorem c3_failure_resilience (s : PageState) (seq : Nat) (q : GraphQuery)
    (e : String)
    (hfind : s.pending.find? (fun p => p.1 == seq) = some (seq, q)) :
    (deliverResp seq (Except.error e) s).model = s.model
    ∧ (deliverResp seq (Except.error e) s).alerts
        = s.alerts ++ [couldNotFetch e]
    ∧ couldNotFetch e = "Could not fetch services: " ++ getErrorString e
    ∧ (∃ pre, couldNotFetch e = pre ++ e) := by
  unfold deliverResp
  rw [hfind]
  exact ⟨rfl, rfl, rfl, ⟨"Could not fetch services: ", rfl⟩⟩

/-- Sample state with one in-flight request, used as the C3 witness. -/
def c3SampleState : PageState :=
  { initialState ["a"] 60 with pending := [(0, mkGraphQuery ["a"])] }

/-- Witness for C3 at a concrete failing response. -/
theorem c3_failure_resilience_witness :
    (deliverResp 0 (Except.error "boom") c3SampleState).model
        = c3SampleState.model
    ∧ (deliverResp 0 (Except.error "boom") c3SampleState).alerts
        = c3SampleState.alerts ++ [couldNotFetch "boom"] := by
  have h := c3_failure_resilience c3SampleState 0 (mkGraphQuery ["a"]) "boom"
    (by decide)
  exact ⟨h.1, h.2.1⟩

/-- Raw node with identifier a1, part of the response of fetch 1. -/
def c4NodeA : RawNodeData :=
  { id := "a1", nodeType := "workload", namespc := "n1", cluster := "c1",
    healthSignal := some 0, outOfMesh := false, isSecurity := false,
    isVirtualService := false }

/-- Raw node with identifier b1, part of the response of fetch 2. -/
def c4NodeB : RawNodeData :=
  { c4NodeA with id := "b1", namespc := "n2" }

/-- Response of fetch 1. -/
def c4RespA : FetchResponse :=
  { elements := [RawElement.node c4NodeA], duration := 60 }

/-- Response of fetch 2. -/
def c4RespB : FetchResponse :=
  { elements := [RawElement.node c4NodeB], duration := 60 }

/-- Trace for C4: fetch 1 is triggered (sequence 0), fetch 2 is
triggered before fetch 1 resolves (sequence 1), the response of fetch 2
arrives first, then the stale response of fetch 1 arrives. -/
def c4Trace : List Event :=
  [Event.viewChange ["nsA"] 60, Event.viewChange ["nsB"] 60,
   Event.deliver 1 (Except.ok c4RespB), Event.deliver 0 (Except.ok c4RespA)]

/-- C4 counterexample: after the out-of-order completion in c4Trace the
finally stored Model is built from the response of fetch 1 (it contains
node a1 and no node b1), although fetch 2 was triggered later and its
result had already been stored; the stale in-flight response does
overwrite the newer Model. -/
theorem c4_stale_overwrite_cex :
    ((run c4Trace (initialState [] 60)).model.nodes.any
        (fun n => n.id == "a1") = true)
    ∧ ((run c4Trace (initialState [] 60)).model.nodes.any
        (fun n => n.id == "b1") = false)
    ∧ ((run (c4Trace.take 3) (initialState [] 60)).model.nodes.any
        (fun n => n.id == "b1") = true) := by
  decide

/-- C4 amended: the coordinator performs no sequence tagging; every
successful response delivery for a pending request unconditionally
replaces the stored Model with the model generated from that response
and its captured query, so the finally stored Model reflects whichever
response is delivered last, not necessarily the latest-triggered
fetch. -/
theorem c4_last_delivery_wins (s : PageState) (seq : Nat) (q : GraphQuery)
    (data : FetchResponse) (dg : DecoratedGraphData)
    (hfind : s.pending.find? (fun p => p.1 == seq) = some (seq, q))
    (hdec : decorateGraphData data.elements data.duration = Except.ok dg) :
    (deliverResp seq (Except.ok data) s).model
      = { nodes := (generateDataModel dg q).nodes,
          edges := (generateDataModel dg q).edges,
          graph := graphConfig } := by
  unfold deliverResp
  simp [hfind, hdec, setModel]

/-- Sample state with one in-flight request, used as the C4 witness. -/
def c4PendState : PageState :=
  { initialState [] 60 with pending := [(0, mkGraphQuery ["nsA"])] }

/-- Decoration of the fetch 1 response, used as the C4 witness. -/
def c4Dg : DecoratedGraphData :=
  { nodes := [{ id := "a1", nodeType := "workload", namespc := "n1",
                cluster := "c1", health := Health.healthy,
                outOfMesh := false, isSecurity := false,
                isVirtualService := false }],
    edges := [], duration := 60 }

/-- Witness for the amended C4 at a concrete delivery. -/
theorem c4_last_delivery_wins_witness :
    (deliverResp 0 (Except.ok c4RespA) c4PendState).model
      = { nodes := (generateDataModel c4Dg (mkGraphQuery ["nsA"])).nodes,
          edges := (generateDataModel c4Dg (mkGraphQuery ["nsA"])).edges,
          graph := graphConfig } :=
  c4_last_delivery_wins c4PendState 0 (mkGraphQuery ["nsA"]) c4RespA c4Dg
    (by decide) (by rfl)

/-- Burst of two qualifying trigger events in immediate succession. -/
def c5Burst : List Event :=
  [Event.viewChange ["a"] 60, Event.viewChange ["a", "b"] 60]

/-- C5 counterexample: two qualifying trigger events arriving back to
back, hence within any coalescing window, each run fetchGraph at once
through the change-detection effect: two telemetry queries are issued,
not one. -/
theorem c5_burst_two_fetches_cex :
    (run c5Burst (initialState [] 60)).fetchCalls = 2
    ∧ (run c5Burst (initialState [] 60)).sentQueries.length = 2
    ∧ ¬((run c5Burst (initialState [] 60)).sentQueries.length = 1) := by
  decide

/-- C5 amended: the change-detection effect is not debounced, so a
burst of N qualifying trigger events issues N fetch calls, one per
event; the 10 unit debounce governs only the mount-time refresh
callback, which contributes its own separate fetch. -/
theorem c5_one_fetch_per_qualifying_event (evs : List (List String × Nat))
    (s : PageState) (h : qualifyingChainB s evs = true) :
    (runViewChanges evs s).fetchCalls = s.fetchCalls + evs.length := by
  induction evs generalizing s with
  | nil => rfl
  | cons ev evs ih =>
    obtain ⟨ns, dur⟩ := ev
    unfold qualifyingChainB at h
    rw [Bool.and_eq_true] at h
    obtain ⟨h1, h2⟩ := h
    have hc : (stepViewChange ns dur s).fetchCalls = s.fetchCalls + 1 := by
      rw [stepViewChange_pos h1]
      simpa using fetchGraph_fetchCalls ns s
    show (runViewChanges evs (stepViewChange ns dur s)).fetchCalls = _
    rw [ih _ h2, hc, List.length_cons]
    omega

/-- Witness for the amended C5 on a two-event qualifying burst. -/
theorem c5_one_fetch_per_qualifying_event_witness :
    (runViewChanges [(["a"], 60), (["a", "b"], 60)]
        (initialState [] 60)).fetchCalls
      = (initialState [] 60).fetchCalls + 2 :=
  c5_one_fetch_per_qualifying_event [(["a"], 60), (["a", "b"], 60)]
    (initialState [] 60) (by decide)

/-- C6 counterexample: from a state with previous duration 60, a render
with duration 120 triggers a fetch; in the resulting observable state
the snapshot already reflects the new duration while the Model still
holds the previous data and the response is still in flight, so an
observer does see a snapshot-new, Model-old state. -/
theorem c6_snapshot_before_model_cex :
    (stepViewChange ["a"] 120 (initialState ["a"] 60)).prevDuration = 120
    ∧ (stepViewChange ["a"] 120 (initialState ["a"] 60)).model
        = (initialState ["a"] 60).model
    ∧ (stepViewChange ["a"] 120 (initialState ["a"] 60)).pending.length = 1 := by
  decide

/-- C6 amended: the snapshot and the Model are replaced at different
transition points, each individually in a single step: a qualifying
render updates the snapshot to the new view parameters and leaves the
Model untouched when a network fetch is issued, and a response delivery
never changes the snapshot while, on success, it replaces the Model
whole; between trigger and delivery the snapshot reflects the new
parameters while the Model still holds the old data. -/
theorem c6_snapshot_and_model_updates (ns : List String) (dur : Nat)
    (s : PageState) (seq : Nat) (resp : Except String FetchResponse)
    (ht : triggersB s ns dur = true) (hne : ns ≠ []) :
    (stepViewChange ns dur s).prevDuration = dur
    ∧ (stepViewChange ns dur s).prevActiveNs = ns
    ∧ (stepViewChange ns dur s).model = s.model
    ∧ (deliverResp seq resp s).prevDuration = s.prevDuration
    ∧ (deliverResp seq resp s).prevActiveNs = s.prevActiveNs := by
  have hlen : ¬(ns.length = 0) := fun h => hne (List.length_eq_zero.mp h)
  have hmodel : (fetchGraph ns s).model = s.model := by
    unfold fetchGraph
    rw [if_neg hlen]
  refine ⟨?_, ?_, ?_, ?_, ?_⟩
  · rw [stepViewChange_pos ht]
  · rw [stepViewChange_pos ht]
  · rw [stepViewChange_pos ht]
    simpa using hmodel
  · unfold deliverResp
    split
    · rfl
    · split
      · rfl
      · split
        · rfl
        · rfl
  · unfold deliverResp
    split
    · rfl
    · split
      · rfl
      · split
        · rfl
        · rfl

/-- Witness for the amended C6 at a concrete trigger and delivery. -/
theorem c6_snapshot_and_model_updates_witness :
    (stepViewChange ["a"] 120 (initialState ["a"] 60)).prevDuration = 120
    ∧ (deliverResp 0 (Except.error "x")
        (initialState ["a"] 60)).prevDuration = 60 := by
  have h := c6_snapshot_and_model_updates ["a"] 120 (initialState ["a"] 60) 0
    (Except.error "x") (by decide) (by decide)
  exact ⟨h.1, h.2.2.2.1⟩

/-- C7: the composed pipeline of decoration and model generation is
deterministic: two invocations on identical raw elements, duration and
query parameters produce identical results, and in particular node and
edge lists that are equal element for element in the same order. -/
theorem c7_pipeline_deterministic (E1 E2 : List RawElement) (d1 d2 : Nat)
    (P1 P2 : GraphQuery) (hE : E1 = E2) (hd : d1 = d2) (hP : P1 = P2) :
    pipeline E1 d1 P1 = pipeline E2 d2 P2
    ∧ (∀ g1 g2, pipeline E1 d1 P1 = Except.ok g1 →
        pipeline E2 d2 P2 = Except.ok g2 →
        g1.nodes = g2.nodes ∧ g1.edges = g2.edges) := by
  subst hE
  subst hd
  subst hP
  refine ⟨rfl, ?_⟩
  intro g1 g2 h1 h2
  rw [h1] at h2
  cases h2
  exact ⟨rfl, rfl⟩

/-- Raw workload node of the bookinfo example scenario. -/
def c7W1 : RawNodeData :=
  { id := "w1", nodeType := "workload", namespc := "bookinfo",
    cluster := "c", healthSignal := some 0, outOfMesh := false,
    isSecurity := false, isVirtualService := false }

/-- Second raw workload node of the bookinfo example scenario. -/
def c7W2 : RawNodeData :=
  { c7W1 with id := "w2" }

/-- Raw edge of the bookinfo example scenario, through service reviews. -/
def c7E : RawEdgeData :=
  { source := "w1", target := "w2", httpCount := 120, grpcCount := 0,
    tcpCount := 0, serviceName := some "reviews", healthSignal := some 0 }

/-- Raw elements of the bookinfo example scenario. -/
def c7Elems : List RawElement :=
  [RawElement.node c7W1, RawElement.node c7W2, RawElement.edge c7E]

/-- Witness for C7 on the bookinfo example inputs. -/
theorem c7_pipeline_deterministic_witness :
    pipeline c7Elems 60 (mkGraphQuery ["bookinfo"])
      = pipeline c7Elems 60 (mkGraphQuery ["bookinfo"]) :=
  (c7_pipeline_deterministic c7Elems c7Elems 60 60 (mkGraphQuery ["bookinfo"])
    (mkGraphQuery ["bookinfo"]) rfl rfl rfl).1

/-- Invocation of fetchGraph either leaves the controller log
unchanged or appends one model pushed with animate false. -/
theorem fetchGraph_applied (ns : List String) (s : PageState) :
    (fetchGraph ns s).controller.applied = s.controller.applied
    ∨ ∃ m, (fetchGraph ns s).controller.applied
        = s.controller.applied ++ [(m, false)] := by
  unfold fetchGraph
  split
  · exact Or.inr ⟨_, rfl⟩
  · exact Or.inl rfl

/-- Delivery of a response either leaves the controller log unchanged
or appends one model pushed with animate false. -/
theorem deliverResp_applied (seq : Nat) (resp : Except String FetchResponse)
    (s : PageState) :
    (deliverResp seq resp s).controller.applied = s.controller.applied
    ∨ ∃ m, (deliverResp seq resp s).controller.applied
        = s.controller.applied ++ [(m, false)] := by
  unfold deliverResp
  split
  · exact Or.inl rfl
  · split
    · exact Or.inl rfl
    · split
      · exact Or.inl rfl
      · exact Or.inr ⟨_, rfl⟩

/-- Qualifying or not, a render either leaves the controller log
unchanged or appends one model pushed with animate false. -/
theorem stepViewChange_applied (ns : List String) (dur : Nat)
    (s : PageState) :
    (stepViewChange ns dur s).controller.applied = s.controller.applied
    ∨ ∃ m, (stepViewChange ns dur s).controller.applied
        = s.controller.applied ++ [(m, false)] := by
  unfold stepViewChange
  split
  · exact fetchGraph_applied ns s
  · exact Or.inl rfl

/-- Every step either leaves the controller log unchanged or appends
one model pushed with the animate argument false. -/
theorem step_applied_sub (e : Event) (s : PageState) :
    (step e s).controller.applied = s.controller.applied
    ∨ ∃ m, (step e s).controller.applied
        = s.controller.applied ++ [(m, false)] := by
  cases e with
  | viewChange ns dur => exact stepViewChange_applied ns dur s
  | deliver seq resp => exact deliverResp_applied seq resp s
  | refresh ns => exact fetchGraph_applied ns s

/-- Invocation of fetchGraph keeps the fitToScreenOnLayout flag. -/
theorem fetchGraph_fit (ns : List String) (s : PageState) :
    (fetchGraph ns s).controller.fitToScreenOnLayout
      = s.controller.fitToScreenOnLayout := by
  unfold fetchGraph
  split <;> rfl

/-- Delivery of a response keeps the fitToScreenOnLayout flag. -/
theorem deliverResp_fit (seq : Nat) (resp : Except String FetchResponse)
    (s : PageState) :
    (deliverResp seq resp s).controller.fitToScreenOnLayout
      = s.controller.fitToScreenOnLayout := by
  unfold deliverResp
  split
  · rfl
  · split
    · rfl
    · split
      · rfl
      · rfl

/-- Qualifying or not, a render keeps the fitToScreenOnLayout flag. -/
theorem stepViewChange_fit (ns : List String) (dur : Nat) (s : PageState) :
    (stepViewChange ns dur s).controller.fitToScreenOnLayout
      = s.controller.fitToScreenOnLayout := by
  unfold stepViewChange
  split
  · exact fetchGraph_fit ns s
  · rfl

/-- No step changes the fitToScreenOnLayout flag of the controller. -/
theorem step_fit (e : Event) (s : PageState) :
    (step e s).controller.fitToScreenOnLayout
      = s.controller.fitToScreenOnLayout := by
  cases e with
  | viewChange ns dur => exact stepViewChange_fit ns dur s
  | deliver seq resp => exact deliverResp_fit seq resp s
  | refresh ns => exact fetchGraph_fit ns s

/-- Along any run, every model pushed into the controller is pushed
with the animate argument false, given that this held initially. -/
theorem run_applied_false (es : List Event) (s : PageState)
    (h : ∀ p ∈ s.controller.applied, p.2 = false) :
    ∀ p ∈ (run es s).controller.applied, p.2 = false := by
  induction es generalizing s with
  | nil => exact h
  | cons e es ih =>
    refine ih (step e s) ?_
    intro p hp
    rcases step_applied_sub e s with heq | ⟨m, heq⟩
    · exact h p (heq ▸ hp)
    · rw [heq] at hp
      rcases List.mem_append.mp hp with hin | hin
      · exact h p hin
      · rw [List.mem_singleton.mp hin]

/-- Along any run the fitToScreenOnLayout flag keeps its value. -/
theorem run_fit (es : List Event) (s : PageState) :
    (run es s).controller.fitToScreenOnLayout
      = s.controller.fitToScreenOnLayout := by
  induction es generalizing s with
  | nil => rfl
  | cons e es ih =>
    show (run es (step e s)).controller.fitToScreenOnLayout = _
    rw [ih (step e s), step_fit]

/-- C8: the visualization controller built by getVisualization has fit
to screen on layout enabled (covering the initial-load layout pass),
and the synchronization effect pushes every new Model into the
controller with the animate argument false; along any run from the
initial page state, every model ever pushed carries animate false and
the fit flag stays enabled. -/
theorem c8_sync_contract (c : Controller) (m : Model) (es : List Event)
    (ns0 : List String) (d0 : Nat) :
    getVisualization.fitToScreenOnLayout = true
    ∧ (controllerFromModel c m).applied = c.applied ++ [(m, false)]
    ∧ (run es (initialState ns0 d0)).controller.fitToScreenOnLayout = true
    ∧ (∀ p ∈ (run es (initialState ns0 d0)).controller.applied,
        p.2 = false) := by
  refine ⟨rfl, rfl, ?_, ?_⟩
  · rw [run_fit]
    rfl
  · refine run_applied_false es (initialState ns0 d0) ?_
    intro p hp
    rw [List.mem_singleton.mp hp]

/-- Witness for C8: the single entry pushed at mount has animate false. -/
theorem c8_sync_contract_witness :
    ((initialModel, false) : Model × Bool).2 = false :=
  (c8_sync_contract getVisualization initialModel [] ["a"] 60).2.2.2
    (initialModel, false) (by decide)

/-- C9 counterexample: the namespace lists a,b and b,a are equal as
unordered sets (nsEqual accepts them and they are permutations of each
other), yet the queries built from them differ, because the
comma-joined namespace strings depend on the list order; so equal
namespace sets do not guarantee identical queries. -/
theorem c9_query_order_cex :
    nsEqual ["a", "b"] ["b", "a"] = true
    ∧ (["a", "b"] : List String).Perm ["b", "a"]
    ∧ mkGraphQuery ["a", "b"] ≠ mkGraphQuery ["b", "a"]
    ∧ (fetchGraph ["a", "b"] (initialState [] 60)).sentQueries
        ≠ (fetchGraph ["b", "a"] (initialState [] 60)).sentQueries := by
  refine ⟨by decide, by decide, by decide, by decide⟩

/-- C9 amended: the query sent to the telemetry source is fully
determined by the active namespace list (in its order): the graph type
is VERSIONED_APP, injectServiceNodes, boxByNamespace and boxByCluster
are true, showOutOfMesh, showSecurity and showVirtualServices are
false, the edge label modes and traffic rate kinds are fixed constants,
and the selected duration is not part of the query: two triggered
fetches with equal namespace lists and different durations send
identical queries. -/
theorem c9_query_shape (ns : List String) (s : PageState) (d d2 : Nat)
    (hne : ns ≠ []) (hd : d ≠ s.prevDuration) (hd2 : d2 ≠ s.prevDuration) :
    (mkGraphQuery ns).graphType = GraphType.versionedApp
    ∧ (mkGraphQuery ns).injectServiceNodes = true
    ∧ (mkGraphQuery ns).boxByNamespace = true
    ∧ (mkGraphQuery ns).boxByCluster = true
    ∧ (mkGraphQuery ns).showOutOfMesh = false
    ∧ (mkGraphQuery ns).showSecurity = false
    ∧ (mkGraphQuery ns).showVirtualServices = false
    ∧ (mkGraphQuery ns).edgeLabels
        = [EdgeLabelMode.trafficRate, EdgeLabelMode.trafficDistribution]
    ∧ (mkGraphQuery ns).trafficRates
        = [TrafficRate.httpRequest, TrafficRate.grpcTotal,
           TrafficRate.tcpTotal]
    ∧ (mkGraphQuery ns).activeNamespaces = joinComma ns
    ∧ (mkGraphQuery ns).namespaces = joinComma ns
    ∧ (fetchGraph ns s).sentQueries = s.sentQueries ++ [mkGraphQuery ns]
    ∧ (stepViewChange ns d s).sentQueries
        = (stepViewChange ns d2 s).sentQueries := by
  have hlen : ¬(ns.length = 0) := fun h => hne (List.length_eq_zero.mp h)
  have hsent : (fetchGraph ns s).sentQueries
      = s.sentQueries ++ [mkGraphQuery ns] := by
    unfold fetchGraph
    rw [if_neg hlen]
  have ht : triggersB s ns d = true := by
    unfold triggersB
    rw [Bool.or_eq_true, decide_eq_true_eq]
    exact Or.inl hd
  have ht2 : triggersB s ns d2 = true := by
    unfold triggersB
    rw [Bool.or_eq_true, decide_eq_true_eq]
    exact Or.inl hd2
  refine ⟨rfl, rfl, rfl, rfl, rfl, rfl, rfl, rfl, rfl, rfl, rfl, hsent, ?_⟩
  rw [stepViewChange_pos ht, stepViewChange_pos ht2]

/-- Witness for the amended C9 at a concrete namespace list. -/
theorem c9_query_shape_witness :
    (fetchGraph ["a"] (initialState ["a"] 60)).sentQueries
      = (initialState ["a"] 60).sentQueries ++ [mkGraphQuery ["a"]] :=
  (c9_query_shape ["a"] (initialState ["a"] 60) 120 180 (by decide)
    (by decide) (by decide)).2.2.2.2.2.2.2.2.2.2.2.1

/-- Invocation of fetchGraph yields a Model whose graph configuration
is graphConfig, or leaves the Model unchanged. -/
theorem fetchGraph_graph (ns : List String) (s : PageState)
    (h : s.model.graph = graphConfig) :
    (fetchGraph ns s).model.graph = graphConfig := by
  unfold fetchGraph
  split
  · rfl
  · exact h

/-- Delivery of a response yields a Model whose graph configuration is
graphConfig, or leaves the Model unchanged. -/
theorem deliverResp_graph (seq : Nat) (resp : Except String FetchResponse)
    (s : PageState) (h : s.model.graph = graphConfig) :
    (deliverResp seq resp s).model.graph = graphConfig := by
  unfold deliverResp
  split
  · exact h
  · split
    · exact h
    · split
      · exact h
      · rfl

/-- Qualifying or not, a render preserves the graph configuration of
the stored Model. -/
theorem stepViewChange_graph (ns : List String) (dur : Nat)
    (s : PageState) (h : s.model.graph = graphConfig) :
    (stepViewChange ns dur s).model.graph = graphConfig := by
  unfold stepViewChange
  split
  · exact fetchGraph_graph ns s h
  · exact h

/-- Every step preserves the graph configuration of the stored Model. -/
theorem step_graph_preserved (e : Event) (s : PageState)
    (h : s.model.graph = graphConfig) :
    (step e s).model.graph = graphConfig := by
  cases e with
  | viewChange ns dur => exact stepViewChange_graph ns dur s h
  | deliver seq resp => exact deliverResp_graph seq resp s h
  | refresh ns => exact fetchGraph_graph ns s h

/-- C10: every Model ever stored by the page carries the constant graph
configuration with id g1, type graph and layout Dagre: the initial
Model has it, and along any run of view changes, deliveries and
refreshes, the stored Model keeps it, the empty fast path and the
success path included. -/
theorem c10_graph_config_invariant (ns0 : List String) (d0 : Nat)
    (es : List Event) :
    initialModel.graph = graphConfig
    ∧ (initialState ns0 d0).model.graph = graphConfig
    ∧ graphConfig = { id := "g1", type := "graph", layout := "Dagre" }
    ∧ (run es (initialState ns0 d0)).model.graph = graphConfig := by
  refine ⟨rfl, rfl, rfl, ?_⟩
  have hrun : ∀ (l : List Event) (s : PageState),
      s.model.graph = graphConfig → (run l s).model.graph = graphConfig := by
    intro l
    induction l with
    | nil => intro s h; exact h
    | cons e l ih => intro s h; exact ih (step e s) (step_graph_preserved e s h)
  exact hrun es (initialState ns0 d0) rfl

end TrafficGraph
